import Mathlib

/-!
Shallow embedding of tg-state-manager (Go).

Source files embedded: `state.go` (the state-transition engine),
`storage.go` (the UserState record and storage contract),
`inmemory.go` (the in-memory backend), `redis.go` (the Redis-backed
backend, parametrised over the JSON encode/decode pair).

Go's generic type parameters `S` (payload) and `U` (update/event) are
Lean type parameters.  Go's `int64` routing keys are modelled as `Int`
(no arithmetic is ever performed on them, only equality).  Go errors
are modelled by small inductive types; `errors.Is(err, ErrValidation)`
becomes equality with the `validation` constructor.  Callbacks that in
Go mutate the payload through a pointer are modelled as functions
returning the new payload on success (`Except`).  Storage side effects
are made explicit: `Handle` returns the resulting store together with
the list of `Set` calls it performed, in order.
-/

namespace TgStateManager

/-- Callback errors. `validation` models the distinguished `ErrValidation`
sentinel (checked in Go via `errors.Is`); `other` models every other
error value a prompt/handle callback can return. -/
inductive CbError where
  | validation
  | other (msg : String)
deriving DecidableEq, Repr

/-- Errors returned by `StateManager.Add` (Go: `ErrEmptyStateName`,
`ErrDuplicateState` wrapped with the offending name). -/
inductive AddError where
  | emptyStateName
  | duplicateState (name : String)
deriving DecidableEq, Repr

/-- Go: `const NopState = "<nop>"` — the "stay" sentinel next-state value. -/
def NopState : String := "<nop>"

/-- Go `storage.go`: `UserState[S]` holds the current state name, the
opaque payload and the prompt-sent flag. -/
structure UserState (S : Type) where
  currentState : String
  data : S
  promptSent : Bool
deriving DecidableEq, Repr

/-- The Go zero value of `UserState[S]`: empty state name, zero payload,
`false` flag (what a Go map access or `var` declaration yields). -/
instance [Inhabited S] : Inhabited (UserState S) := ⟨⟨"", default, false⟩⟩

/-- Go `state.go`: a `State[S, U]` is a named pair of callbacks.
`prompt` is optional; `handle` is a nilable function field in Go, hence
also an `Option` here.  `handle` returns the next-state name and (since
Go mutates the payload in place) the updated payload. -/
structure State (S U : Type) where
  name : String
  prompt : Option (U → S → Except CbError S)
  handle : Option (U → S → Except CbError (String × S))

/-- Go `state.go`: the manager owns the state table, the key-extraction
function and the configured initial state (zero value: `""`). -/
structure StateManager (S U : Type) where
  states : String → Option (State S U)
  keyFunc : U → Int
  initialState : String

/-- Go: `NewStateManager` — empty table, no initial state configured. -/
def NewStateManager (keyFunc : U → Int) : StateManager S U :=
  { states := fun _ => none, keyFunc := keyFunc, initialState := "" }

/-- Go: `SetInitialState`. -/
def StateManager.SetInitialState (m : StateManager S U) (name : String) :
    StateManager S U :=
  { m with initialState := name }

/-- Go: `Add(states ...)` — iterates the batch; an empty name aborts with
`ErrEmptyStateName`, an existing name aborts with `ErrDuplicateState`;
otherwise the state is inserted and iteration continues.  States added
before an abort stay in the table (Go mutates the map in place), so the
result carries the (possibly partially updated) manager alongside the
optional error. -/
def StateManager.Add (m : StateManager S U) (ss : List (State S U)) :
    Option AddError × StateManager S U :=
  match ss with
  | [] => (none, m)
  | s :: rest =>
    if s.name = "" then (some .emptyStateName, m)
    else
      match m.states s.name with
      | some _ => (some (.duplicateState s.name), m)
      | none =>
        StateManager.Add
          { m with states := fun n => if n = s.name then some s else m.states n }
          rest

/-- The in-memory store: a map from routing key to record, modelled as a
function into `Option` (Go `inmemory.go`: `map[int64]UserState[S]`).
The reader/writer lock only guards the map structure and has no
sequential content. -/
def Store (S : Type) : Type := Int → Option (UserState S)

/-- Go `inmemory.go` `Set`: total map update, fully replaces the record. -/
def Store.set (st : Store S) (key : Int) (us : UserState S) : Store S :=
  fun k => if k = key then some us else st k

/-- Go `inmemory.go` `Get`: returns the record and `true` when present,
the zero value and `false` when absent; never an error. -/
def Store.get [Inhabited S] (st : Store S) (key : Int) :
    UserState S × Bool × Option String :=
  match st key with
  | some s => (s, true, none)
  | none => (default, false, none)

/-- One observable outcome of `StateManager.Handle`: the returned
`(consumed, error)` pair, the store after the call, and the ordered
list of storage `Set` calls the engine made during the call. -/
structure HandleResult (S : Type) where
  consumed : Bool
  err : Option CbError
  store : Store S
  writes : List (Int × UserState S)

/-- Go `state.go` `sendPrompt`: run the prompt on the payload; on error
propagate with no write; on success set `promptSent := true` and write
the whole record. -/
def sendPrompt (p : U → S → Except CbError S) (update : U)
    (us : UserState S) (key : Int) (store : Store S) :
    Option CbError × Store S × List (Int × UserState S) :=
  match p update us.data with
  | .error e => (some e, store, [])
  | .ok d' =>
    let us' : UserState S := { us with data := d', promptSent := true }
    (none, store.set key us', [(key, us')])

/-- Go `state.go` lines 67-75: load the record for the routing key, or
synthesize one for a first-seen key (zero-valued record with the
configured initial state; the in-memory `Get` never errors). -/
def loadUserState [Inhabited S] (m : StateManager S U) (store : Store S)
    (update : U) : UserState S :=
  match store (m.keyFunc update) with
  | some s => s
  | none => { currentState := m.initialState, data := default, promptSent := false }

/-- Go `state.go` `Handle`, composed with the in-memory backend (whose
`Get` never errors and whose `Set` is total).  Mirrors the source line
by line: load (or synthesize) the record, look up the state, send the
entry prompt if pending, otherwise run `handle`; on success persist the
transition, then — unless the next state is `""` or the `NopState`
sentinel — auto-send the next state's prompt when it has one. -/
def StateManager.Handle [Inhabited S] (m : StateManager S U)
    (store : Store S) (update : U) : HandleResult S :=
  let key := m.keyFunc update
  let us0 : UserState S := loadUserState m store update
  match m.states us0.currentState with
  | none => ⟨false, none, store, []⟩
  | some st =>
    match st.prompt, us0.promptSent with
    | some p, false =>
      match sendPrompt p update us0 key store with
      | (e, store', ws) => ⟨true, e, store', ws⟩
    | _, _ =>
      match st.handle with
      | none => ⟨false, none, store, []⟩
      | some h =>
        match h update us0.data with
        | .error e =>
          if e = CbError.validation then ⟨true, none, store, []⟩
          else ⟨false, some e, store, []⟩
        | .ok (next, d') =>
          let us1 : UserState S := ⟨next, d', false⟩
          let store1 := store.set key us1
          if next = "" ∨ next = NopState then ⟨true, none, store1, [(key, us1)]⟩
          else
            match m.states next with
            | some nx =>
              match nx.prompt with
              | some p =>
                match sendPrompt p update us1 key store1 with
                | (e, store2, ws) => ⟨true, e, store2, (key, us1) :: ws⟩
              | none => ⟨true, none, store1, [(key, us1)]⟩
            | none => ⟨true, none, store1, [(key, us1)]⟩

/-- Go `redis.go`: Redis-backed storage.  The key-value store is the
(pure) shared map `kv`; `pre` is the caller-supplied key namespace (Go
field `prefix`); `enc`/`dec` model `encoding/json`'s `Marshal` and
`Unmarshal` specialised to `UserState S` — the serialized byte payload
is the type parameter `B`, since the wire format is out of scope beyond
the round-trip contract. -/
structure RedisStorage (S B : Type) where
  kv : String → Option B
  pre : String
  enc : UserState S → Except String B
  dec : B → Except String (UserState S)

/-- Go `redis.go` `formatKey`: `{prefix}:{routingKey}`. -/
def RedisStorage.formatKey (r : RedisStorage S B) (id : Int) : String :=
  r.pre ++ ":" ++ toString id

/-- Go `redis.go` `Get`: a missing key (`redis.Nil`) yields the zero
record with `exists = false` and no error; a present key is
deserialized, propagating a deserialization failure as an error. -/
def RedisStorage.Get [Inhabited S] (r : RedisStorage S B) (id : Int) :
    UserState S × Bool × Option String :=
  match r.kv (r.formatKey id) with
  | none => (default, false, none)
  | some b =>
    match r.dec b with
    | .error e => (default, false, some e)
    | .ok s => (s, true, none)

/-- Go `redis.go` `Set`: serialize, propagating a serialization failure;
otherwise overwrite the namespaced key wholesale, with no expiry. -/
def RedisStorage.Set (r : RedisStorage S B) (id : Int) (s : UserState S) :
    Except String (RedisStorage S B) :=
  match r.enc s with
  | .error e => .error e
  | .ok b =>
    .ok { r with kv := fun k => if k = r.formatKey id then some b else r.kv k }

/-!
Concrete test fixtures (payload `Nat`, update `Nat`), used by the
witness and counterexample theorems below.  The update value selects
the callback behaviour; the routing key is the constant 7.
-/

/-- Fixture state `"v"`: no prompt; its handler returns, by update value:
validation error (0), a non-validation error (1), a transition to `"t"`
(2), to `"q"` (3), to `"pf"` (5), otherwise end of flow. -/
def wV : State Nat Nat :=
  { name := "v", prompt := none,
    handle := some (fun u d =>
      if u = 0 then .error .validation
      else if u = 1 then .error (.other "boom")
      else if u = 2 then .ok ("t", d + 1)
      else if u = 3 then .ok ("q", d + 1)
      else if u = 5 then .ok ("pf", d + 1)
      else .ok ("", d)) }

/-- Fixture state `"t"`: has a succeeding prompt, no handler. -/
def wT : State Nat Nat :=
  { name := "t", prompt := some (fun _ d => .ok (d * 10)), handle := none }

/-- Fixture state `"q"`: neither prompt nor handler. -/
def wQ : State Nat Nat :=
  { name := "q", prompt := none, handle := none }

/-- Fixture state `"pf"`: its prompt always fails. -/
def wPF : State Nat Nat :=
  { name := "pf", prompt := some (fun _ _ => .error (.other "pfail")),
    handle := none }

/-- Fixture state `"ep"`: its prompt fails on update 9, else succeeds. -/
def wEP : State Nat Nat :=
  { name := "ep",
    prompt := some (fun u d => if u = 9 then .error (.other "efail") else .ok (d + 100)),
    handle := none }

/-- Fixture state table. -/
def wStates : String → Option (State Nat Nat) := fun n =>
  if n = "v" then some wV
  else if n = "t" then some wT
  else if n = "q" then some wQ
  else if n = "pf" then some wPF
  else if n = "ep" then some wEP
  else none

/-- Fixture manager: constant routing key 7, initial state `"ep"`. -/
def wMgr : StateManager Nat Nat :=
  { states := wStates, keyFunc := fun _ => 7, initialState := "ep" }

/-- Fixture store with one record: key 7 is in `"v"`, payload 3,
prompt already sent. -/
def wStore : Store Nat := fun k => if k = 7 then some ⟨"v", 3, true⟩ else none

/-- Empty fixture store. -/
def wStoreEmpty : Store Nat := fun _ => none

/-- C1 fixture: state `"a"` whose handler always returns the `NopState`
sentinel with the payload unchanged. -/
def nopA : State Nat Nat :=
  { name := "a", prompt := none,
    handle := some (fun _ d => .ok (NopState, d)) }

/-- C1 fixture: a state registered under the sentinel name itself, with
a prompt that would overwrite the payload with 99 if it ever ran. -/
def nopSentinelState : State Nat Nat :=
  { name := NopState, prompt := some (fun _ _ => .ok 99), handle := none }

/-- C1 fixture manager. -/
def nopMgr : StateManager Nat Nat :=
  { states := fun n =>
      if n = "a" then some nopA
      else if n = NopState then some nopSentinelState
      else none,
    keyFunc := fun _ => 1, initialState := "a" }

/-- C1 fixture store: key 1 is in state `"a"`, payload 5. -/
def nopStore : Store Nat := fun k => if k = 1 then some ⟨"a", 5, true⟩ else none

/-- C8 fixture states. -/
def w8a : State Nat Nat := { name := "a", prompt := none, handle := none }

/-- C8 fixture: a second, different state under the same name `"a"`. -/
def w8a2 : State Nat Nat :=
  { name := "a", prompt := none, handle := some (fun _ d => .ok ("", d)) }

/-- C8 fixture: a state with an empty name. -/
def w8e : State Nat Nat := { name := "", prompt := none, handle := none }

/-- C8 fixture manager whose table already holds `w8a` under `"a"`. -/
def w8Mgr : StateManager Nat Nat :=
  { states := fun n => if n = "a" then some w8a else none,
    keyFunc := fun _ => 0, initialState := "" }

/-- C8 fixture: an empty manager. -/
def w8Empty : StateManager Nat Nat := NewStateManager (fun _ => 0)

/-- C6 fixture store: key 7 names a state absent from the table. -/
def wStoreBad : Store Nat := fun k => if k = 7 then some ⟨"zz", 0, false⟩ else none

/-- C9 fixture record. -/
def w9s : UserState Nat := ⟨"x", 1, false⟩

/-- C9 fixture Redis storage: empty key-value map, the identity
encoding (`B := UserState Nat`). -/
def w9r : RedisStorage Nat (UserState Nat) :=
  { kv := fun _ => none, pre := "p", enc := .ok, dec := .ok }

/-- C2: if the user is in a registered state whose prompt is not pending
(already sent, or the state has none) and the handle callback returns
the validation error, `Handle` returns `(true, nil)`, the store is
unchanged (so `currentState` and `promptSent` keep their stored values)
and no storage write occurs. -/
theorem validation_failure_preserves_state [Inhabited S]
    (m : StateManager S U) (store : Store S) (u : U) (us : UserState S)
    (st : State S U) (h : U → S → Except CbError (String × S))
    (hget : store (m.keyFunc u) = some us)
    (hstate : m.states us.currentState = some st)
    (hprompt : st.prompt = none ∨ us.promptSent = true)
    (hhandle : st.handle = some h)
    (hval : h u us.data = .error .validation) :
    m.Handle store u = ⟨true, none, store, []⟩ := by
  unfold StateManager.Handle loadUserState
  simp only [hget, hstate, hhandle, hval]
  rcases hprompt with hp | hp
  · rw [hp]
    cases hb : us.promptSent <;> simp
  · rw [hp]
    cases hq : st.prompt <;> simp

/-- C3: for a key the storage has never seen, `Handle` synthesizes a
record with the configured initial state, `promptSent = false` and the
zero payload; when that state declares a prompt, the prompt runs on the
zero payload, `promptSent = true` is persisted in a single write, and
the call returns `(true, nil)`.  The state's `handle` field is an
unconstrained binder and does not occur in the conclusion: the handle
callback is not invoked on this event. -/
theorem first_handle_seeds_initial_state [Inhabited S]
    (m : StateManager S U) (store : Store S) (u : U)
    (st : State S U) (p : U → S → Except CbError S) (d' : S)
    (hget : store (m.keyFunc u) = none)
    (hstate : m.states m.initialState = some st)
    (hprompt : st.prompt = some p)
    (hp : p u (default : S) = .ok d') :
    m.Handle store u =
      ⟨true, none,
       store.set (m.keyFunc u) ⟨m.initialState, d', true⟩,
       [(m.keyFunc u, ⟨m.initialState, d', true⟩)]⟩ := by
  unfold StateManager.Handle loadUserState sendPrompt
  simp only [hget, hstate, hprompt, hp]

/-- C6: when the loaded (or synthesized) record names a state with no
entry in the state table, `Handle` returns `(false, nil)`: the event is
not consumed, the store is unchanged and no write occurs (no state
definition is even reachable, so no callback runs). -/
theorem unknown_state_not_handled [Inhabited S]
    (m : StateManager S U) (store : Store S) (u : U)
    (hstate : m.states (loadUserState m store u).currentState = none) :
    m.Handle store u = ⟨false, none, store, []⟩ := by
  unfold StateManager.Handle
  simp only [hstate]

/-- C1: evaluation of `Handle` at a concrete failing input for the
"stay" sentinel claim.  Key 1 is stored in state `"a"` (payload 5) and
the handler returns the `NopState` sentinel.  The call does return
`(true, nil)` and invokes no prompt (even though a state registered
under the sentinel name has one: the payload stays 5 and there is no
second write), but the stored record does NOT keep `currentState = "a"`:
the engine persists `currentState = "<nop>"` (with `promptSent = false`)
in a storage write, contradicting the claim that the user stays in the
current state with no transition. -/
theorem nop_sentinel_overwrites_stored_state :
    (nopMgr.Handle nopStore 0).consumed = true ∧
    (nopMgr.Handle nopStore 0).err = none ∧
    (nopMgr.Handle nopStore 0).store 1 = some ⟨NopState, 5, false⟩ ∧
    (nopMgr.Handle nopStore 0).writes = [(1, ⟨NopState, 5, false⟩)] ∧
    NopState ≠ "a" := by
  refine ⟨rfl, rfl, ?_, rfl, by decide⟩
  show (if (1 : Int) = 1 then some (⟨NopState, 5, false⟩ : UserState Nat)
        else nopStore 1) = some ⟨NopState, 5, false⟩
  simp

/-- C4: a non-validation callback error is propagated unmodified with no
storage write for the failing step.  Three cases: (a) the entry prompt
fails — no write at all, `promptSent` not set; (b) the handle callback
fails with a non-validation error — `(false, error)`, no write; (c) the
prompt of the state just transitioned to fails — the error is
propagated, the only write is the handle-step commit (with
`promptSent = false`), the prompt step writes nothing. -/
theorem callback_error_propagated_without_write [Inhabited S]
    (m : StateManager S U) (store : Store S) (u : U)
    (us : UserState S) (st : State S U)
    (hus : loadUserState m store u = us)
    (hstate : m.states us.currentState = some st) :
    (∀ (p : U → S → Except CbError S) (e : CbError),
       st.prompt = some p → us.promptSent = false → p u us.data = .error e →
       m.Handle store u = ⟨true, some e, store, []⟩) ∧
    (∀ (h : U → S → Except CbError (String × S)) (e : CbError),
       (st.prompt = none ∨ us.promptSent = true) → st.handle = some h →
       h u us.data = .error e → e ≠ .validation →
       m.Handle store u = ⟨false, some e, store, []⟩) ∧
    (∀ (h : U → S → Except CbError (String × S)) (next : String) (d' : S)
       (nx : State S U) (p : U → S → Except CbError S) (e : CbError),
       (st.prompt = none ∨ us.promptSent = true) → st.handle = some h →
       h u us.data = .ok (next, d') → next ≠ "" → next ≠ NopState →
       m.states next = some nx → nx.prompt = some p → p u d' = .error e →
       m.Handle store u =
         ⟨true, some e, store.set (m.keyFunc u) ⟨next, d', false⟩,
          [(m.keyFunc u, ⟨next, d', false⟩)]⟩) := by
  refine ⟨?_, ?_, ?_⟩
  · intro p e hprompt hsent hp
    unfold StateManager.Handle sendPrompt
    simp only [hus, hstate, hprompt, hsent, hp]
  · intro h e hnp hhandle hh hne
    unfold StateManager.Handle
    simp only [hus, hstate, hhandle, hh]
    rcases hnp with hp | hp
    · rw [hp]; cases hb : us.promptSent <;> simp [hne]
    · rw [hp]; cases hq : st.prompt <;> simp [hne]
  · intro h next d' nx p e hnp hhandle hh hne hnop hnx hp hpe
    unfold StateManager.Handle sendPrompt
    simp only [hus, hstate, hhandle, hh, hnx, hp, hpe]
    rcases hnp with hq | hq
    · rw [hq]
      cases hb : us.promptSent <;> simp [hne, hnop]
    · rw [hq]
      cases hq2 : st.prompt <;> simp [hne, hnop]

/-- C7: after the handle callback succeeds with a transition to a
non-empty, non-sentinel state `next`, within the same `Handle` call:
if `next` is registered and declares a prompt, that prompt runs and, on
its success, `promptSent = true` is persisted in a second, separate
write; if `next` is registered without a prompt, the persisted record
is `⟨next, d', false⟩` — `promptSent` stays `false`. -/
theorem transition_prompt_same_call [Inhabited S]
    (m : StateManager S U) (store : Store S) (u : U)
    (us : UserState S) (st : State S U)
    (h : U → S → Except CbError (String × S)) (next : String) (d' : S)
    (hus : loadUserState m store u = us)
    (hstate : m.states us.currentState = some st)
    (hnp : st.prompt = none ∨ us.promptSent = true)
    (hhandle : st.handle = some h)
    (hh : h u us.data = .ok (next, d'))
    (hne : next ≠ "") (hnop : next ≠ NopState) :
    (∀ (nx : State S U) (p : U → S → Except CbError S) (d2 : S),
       m.states next = some nx → nx.prompt = some p → p u d' = .ok d2 →
       m.Handle store u =
         ⟨true, none,
          (store.set (m.keyFunc u) ⟨next, d', false⟩).set (m.keyFunc u)
            ⟨next, d2, true⟩,
          [(m.keyFunc u, ⟨next, d', false⟩), (m.keyFunc u, ⟨next, d2, true⟩)]⟩) ∧
    (∀ (nx : State S U), m.states next = some nx → nx.prompt = none →
       m.Handle store u =
         ⟨true, none, store.set (m.keyFunc u) ⟨next, d', false⟩,
          [(m.keyFunc u, ⟨next, d', false⟩)]⟩) := by
  constructor
  · intro nx p d2 hnx hnxp hp
    unfold StateManager.Handle sendPrompt
    simp only [hus, hstate, hhandle, hh, hnx, hnxp, hp]
    rcases hnp with hq | hq
    · rw [hq]; cases hb : us.promptSent <;> simp [hne, hnop]
    · rw [hq]; cases hq2 : st.prompt <;> simp [hne, hnop]
  · intro nx hnx hnxp
    unfold StateManager.Handle
    simp only [hus, hstate, hhandle, hh, hnx, hnxp]
    rcases hnp with hq | hq
    · rw [hq]; cases hb : us.promptSent <;> simp [hne, hnop]
    · rw [hq]; cases hq2 : st.prompt <;> simp [hne, hnop]

/-- C5: storage-write discipline of a single `Handle` call.  (1) At most
two writes ever occur — one per distinct transition (handle-step commit
and prompt-step commit).  (2) When the call returns an error, at most
one write occurred.  (3) A prompt failure after a successful handle-step
transition leaves exactly the handle-step commit: the transitioned
record `⟨next, d', promptSent := false⟩` is already persisted and the
failed prompt step contributed no write — the two steps are separate
commits. -/
theorem storage_commits_bounded_and_separate [Inhabited S]
    (m : StateManager S U) (store : Store S) (u : U) :
    ((m.Handle store u).writes.length ≤ 2) ∧
    ((m.Handle store u).err ≠ none → (m.Handle store u).writes.length ≤ 1) ∧
    (∀ (us : UserState S) (st : State S U)
       (h : U → S → Except CbError (String × S)) (next : String) (d' : S)
       (nx : State S U) (p : U → S → Except CbError S) (e : CbError),
       loadUserState m store u = us →
       m.states us.currentState = some st →
       (st.prompt = none ∨ us.promptSent = true) →
       st.handle = some h → h u us.data = .ok (next, d') →
       next ≠ "" → next ≠ NopState →
       m.states next = some nx → nx.prompt = some p → p u d' = .error e →
       m.Handle store u =
         ⟨true, some e, store.set (m.keyFunc u) ⟨next, d', false⟩,
          [(m.keyFunc u, ⟨next, d', false⟩)]⟩) := by
  refine ⟨?_, ?_, ?_⟩
  · unfold StateManager.Handle sendPrompt
    dsimp only
    repeat' split <;> try simp_all
  · unfold StateManager.Handle sendPrompt
    dsimp only
    repeat' split <;> try simp_all
  · intro us st h next d' nx p e hus hstate hnp hhandle hh hne hnop hnx hp hpe
    unfold StateManager.Handle sendPrompt
    simp only [hus, hstate, hhandle, hh, hnx, hp, hpe]
    rcases hnp with hq | hq
    · rw [hq]; cases hb : us.promptSent <;> simp [hne, hnop]
    · rw [hq]; cases hq2 : st.prompt <;> simp [hne, hnop]

/-- C10: a prompt failure — whether the entry prompt of the current
state or the prompt of the state just transitioned to — yields
`consumed = true` together with the propagated error, whereas a
non-validation handle-callback failure yields `consumed = false` with
the error. -/
theorem prompt_failure_consumed_handler_failure_not [Inhabited S]
    (m : StateManager S U) (store : Store S) (u : U)
    (us : UserState S) (st : State S U)
    (hus : loadUserState m store u = us)
    (hstate : m.states us.currentState = some st) :
    (∀ (p : U → S → Except CbError S) (e : CbError),
       st.prompt = some p → us.promptSent = false → p u us.data = .error e →
       (m.Handle store u).consumed = true ∧ (m.Handle store u).err = some e) ∧
    (∀ (h : U → S → Except CbError (String × S)) (next : String) (d' : S)
       (nx : State S U) (p : U → S → Except CbError S) (e : CbError),
       (st.prompt = none ∨ us.promptSent = true) →
       st.handle = some h → h u us.data = .ok (next, d') →
       next ≠ "" → next ≠ NopState → m.states next = some nx →
       nx.prompt = some p → p u d' = .error e →
       (m.Handle store u).consumed = true ∧ (m.Handle store u).err = some e) ∧
    (∀ (h : U → S → Except CbError (String × S)) (e : CbError),
       (st.prompt = none ∨ us.promptSent = true) → st.handle = some h →
       h u us.data = .error e → e ≠ .validation →
       (m.Handle store u).consumed = false ∧ (m.Handle store u).err = some e) := by
  refine ⟨?_, ?_, ?_⟩
  · intro p e hprompt hsent hp
    unfold StateManager.Handle sendPrompt
    simp only [hus, hstate, hprompt, hsent, hp]
    exact ⟨trivial, trivial⟩
  · intro h next d' nx p e hnp hhandle hh hne hnop hnx hp hpe
    unfold StateManager.Handle sendPrompt
    simp only [hus, hstate, hhandle, hh, hnx, hp, hpe]
    rcases hnp with hq | hq
    · rw [hq]; cases hb : us.promptSent <;> simp [hne, hnop]
    · rw [hq]; cases hq2 : st.prompt <;> simp [hne, hnop]
  · intro h e hnp hhandle hh hne
    unfold StateManager.Handle
    simp only [hus, hstate, hhandle, hh]
    rcases hnp with hq | hq
    · rw [hq]; cases hb : us.promptSent <;> simp [hne]
    · rw [hq]; cases hq2 : st.prompt <;> simp [hne]

/-- C8: `Add` rejects a state whose name is already in the table with
the duplicate-state error and leaves the table unchanged (retaining the
first definition), rejects an empty name with the empty-name error, and
inserts a state whose name is neither empty nor a duplicate; a batch
registering two states under one name errors and retains only the
first. -/
theorem add_rejects_duplicate_and_empty
    (m : StateManager S U) (s : State S U) :
    (∀ s₀ : State S U, s.name ≠ "" → m.states s.name = some s₀ →
       m.Add [s] = (some (.duplicateState s.name), m)) ∧
    (s.name = "" → m.Add [s] = (some .emptyStateName, m)) ∧
    (s.name ≠ "" → m.states s.name = none →
       (m.Add [s]).1 = none ∧ (m.Add [s]).2.states s.name = some s) ∧
    (∀ s₂ : State S U, s.name ≠ "" → m.states s.name = none →
       s₂.name = s.name →
       (m.Add [s, s₂]).1 = some (.duplicateState s.name) ∧
       (m.Add [s, s₂]).2.states s.name = some s) := by
  refine ⟨?_, ?_, ?_, ?_⟩
  · intro s₀ hne hdup
    simp [StateManager.Add, hne, hdup]
  · intro he
    simp [StateManager.Add, he]
  · intro hne hnew
    simp [StateManager.Add, hne, hnew]
  · intro s₂ hne hnew hs₂
    simp [StateManager.Add, hs₂, hne, hnew]

/-- C9: the storage contract.  In-memory: `Get` after `Set` returns the
stored record with `exists = true` (full replacement of any prior
record), and `Get` on an absent key returns `exists = false` with no
error.  Redis-backed: under the serializer round-trip contract
(`dec` inverts `enc` on the stored record), `Get` after a successful
`Set` returns the record with `exists = true` and no error, and `Get`
on a key never written returns `exists = false` with no error. -/
theorem storage_set_get_roundtrip {S B : Type} [Inhabited S] :
    (∀ (store : Store S) (key : Int) (s : UserState S),
       Store.get (Store.set store key s) key = (s, true, none)) ∧
    (∀ (store : Store S) (key : Int), store key = none →
       Store.get store key = ((default : UserState S), false, none)) ∧
    (∀ (r : RedisStorage S B) (id : Int) (s : UserState S) (b : B),
       r.enc s = .ok b → r.dec b = .ok s →
       (r.Set id s).toOption.map (fun r' => r'.Get id) =
         some (s, true, none)) ∧
    (∀ (r : RedisStorage S B) (id : Int), r.kv (r.formatKey id) = none →
       r.Get id = ((default : UserState S), false, none)) := by
  refine ⟨?_, ?_, ?_, ?_⟩
  · intro store key s
    unfold Store.get Store.set
    simp
  · intro store key hnone
    unfold Store.get
    simp [hnone]
  · intro r id s b henc hdec
    unfold RedisStorage.Set
    rw [henc]
    simp only [Except.toOption, Option.map_some]
    unfold RedisStorage.Get
    simp [RedisStorage.formatKey, hdec]
  · intro r id hnone
    unfold RedisStorage.Get
    simp [hnone]

/-- Witness for C2: key 7 sits in `"v"` (prompt already irrelevant, no
prompt declared) with payload 3; update 0 makes the handler return the
validation error; the call returns `(true, nil)` and the store is
untouched. -/
theorem validation_failure_preserves_state_w :
    wMgr.Handle wStore 0 = ⟨true, none, wStore, []⟩ :=
  validation_failure_preserves_state wMgr wStore 0 ⟨"v", 3, true⟩ wV _
    rfl rfl (Or.inl rfl) rfl rfl

/-- Witness for C3: a first-seen key with initial state `"ep"` gets the
entry prompt (payload 0 ↦ 100), a single persisting write with
`promptSent = true`, and `(true, nil)`. -/
theorem first_handle_seeds_initial_state_w :
    wMgr.Handle wStoreEmpty 0 =
      ⟨true, none, wStoreEmpty.set 7 ⟨"ep", 100, true⟩,
       [(7, (⟨"ep", 100, true⟩ : UserState Nat))]⟩ :=
  first_handle_seeds_initial_state wMgr wStoreEmpty 0 wEP _ 100
    rfl rfl rfl rfl

/-- Witness for C6: key 7 stores the unregistered state name `"zz"`;
the call returns `(false, nil)` with the store untouched. -/
theorem unknown_state_not_handled_w :
    wMgr.Handle wStoreBad 0 = ⟨false, none, wStoreBad, []⟩ :=
  unknown_state_not_handled wMgr wStoreBad 0 rfl

/-- Witness for C4: (a) first contact with update 9 makes the entry
prompt of `"ep"` fail — error propagated, nothing written; (b) update 1
makes the handler of `"v"` fail with a non-validation error —
`(false, error)`, nothing written; (c) update 5 transitions to `"pf"`
whose prompt fails — error propagated, only the handle-step commit with
`promptSent = false`. -/
theorem callback_error_propagated_without_write_w :
    (wMgr.Handle wStoreEmpty 9 = ⟨true, some (.other "efail"), wStoreEmpty, []⟩) ∧
    (wMgr.Handle wStore 1 = ⟨false, some (.other "boom"), wStore, []⟩) ∧
    (wMgr.Handle wStore 5 =
      ⟨true, some (.other "pfail"), wStore.set 7 ⟨"pf", 4, false⟩,
       [(7, (⟨"pf", 4, false⟩ : UserState Nat))]⟩) :=
  ⟨(callback_error_propagated_without_write wMgr wStoreEmpty 9
      ⟨"ep", 0, false⟩ wEP rfl rfl).1 _ _ rfl rfl rfl,
   (callback_error_propagated_without_write wMgr wStore 1
      ⟨"v", 3, true⟩ wV rfl rfl).2.1 _ _ (Or.inl rfl) rfl rfl (by decide),
   (callback_error_propagated_without_write wMgr wStore 5
      ⟨"v", 3, true⟩ wV rfl rfl).2.2 _ "pf" 4 wPF _ _ (Or.inl rfl) rfl rfl
      (by decide) (by decide) rfl rfl rfl⟩

/-- Witness for C5: update 2 (full transition with follow-up prompt)
stays within two writes; update 5 ends in an error after at most one
write, and the transitioned record to `"pf"` is persisted by that
single handle-step commit. -/
theorem storage_commits_bounded_and_separate_w :
    ((wMgr.Handle wStore 2).writes.length ≤ 2) ∧
    ((wMgr.Handle wStore 5).writes.length ≤ 1) ∧
    (wMgr.Handle wStore 5 =
      ⟨true, some (.other "pfail"), wStore.set 7 ⟨"pf", 4, false⟩,
       [(7, (⟨"pf", 4, false⟩ : UserState Nat))]⟩) :=
  ⟨(storage_commits_bounded_and_separate wMgr wStore 2).1,
   (storage_commits_bounded_and_separate wMgr wStore 5).2.1 (by decide),
   (storage_commits_bounded_and_separate wMgr wStore 5).2.2
     ⟨"v", 3, true⟩ wV _ "pf" 4 wPF _ _ rfl rfl (Or.inl rfl) rfl rfl
     (by decide) (by decide) rfl rfl rfl⟩

/-- Witness for C7: update 2 transitions `"v" → "t"` (payload 3 ↦ 4);
`"t"`'s prompt runs in the same call (payload ↦ 40) and a second write
persists `promptSent = true`; update 3 transitions to `"q"`, which has
no prompt, and the persisted record keeps `promptSent = false`. -/
theorem transition_prompt_same_call_w :
    (wMgr.Handle wStore 2 =
      ⟨true, none,
       (wStore.set 7 ⟨"t", 4, false⟩).set 7 ⟨"t", 40, true⟩,
       [(7, (⟨"t", 4, false⟩ : UserState Nat)), (7, ⟨"t", 40, true⟩)]⟩) ∧
    (wMgr.Handle wStore 3 =
      ⟨true, none, wStore.set 7 ⟨"q", 4, false⟩,
       [(7, (⟨"q", 4, false⟩ : UserState Nat))]⟩) :=
  ⟨(transition_prompt_same_call wMgr wStore 2 ⟨"v", 3, true⟩ wV _ "t" 4
      rfl rfl (Or.inl rfl) rfl rfl (by decide) (by decide)).1 wT _ 40
      rfl rfl rfl,
   (transition_prompt_same_call wMgr wStore 3 ⟨"v", 3, true⟩ wV _ "q" 4
      rfl rfl (Or.inl rfl) rfl rfl (by decide) (by decide)).2 wQ rfl rfl⟩

/-- Witness for C10: entry-prompt failure (update 9 on a fresh key) and
post-transition prompt failure (update 5) are consumed with the error;
a handler failure (update 1) is not consumed. -/
theorem prompt_failure_consumed_handler_failure_not_w :
    ((wMgr.Handle wStoreEmpty 9).consumed = true ∧
     (wMgr.Handle wStoreEmpty 9).err = some (.other "efail")) ∧
    ((wMgr.Handle wStore 5).consumed = true ∧
     (wMgr.Handle wStore 5).err = some (.other "pfail")) ∧
    ((wMgr.Handle wStore 1).consumed = false ∧
     (wMgr.Handle wStore 1).err = some (.other "boom")) :=
  ⟨(prompt_failure_consumed_handler_failure_not wMgr wStoreEmpty 9
      ⟨"ep", 0, false⟩ wEP rfl rfl).1 _ _ rfl rfl rfl,
   (prompt_failure_consumed_handler_failure_not wMgr wStore 5
      ⟨"v", 3, true⟩ wV rfl rfl).2.1 _ "pf" 4 wPF _ _ (Or.inl rfl) rfl rfl
      (by decide) (by decide) rfl rfl rfl,
   (prompt_failure_consumed_handler_failure_not wMgr wStore 1
      ⟨"v", 3, true⟩ wV rfl rfl).2.2 _ _ (Or.inl rfl) rfl rfl (by decide)⟩

/-- Witness for C8: re-registering `"a"` errors with the duplicate
error and keeps the first definition; an empty name errors; a fresh
name is inserted; a batch with a repeated name errors and retains the
first occurrence. -/
theorem add_rejects_duplicate_and_empty_w :
    (w8Mgr.Add [w8a2] = (some (.duplicateState "a"), w8Mgr)) ∧
    (w8Mgr.Add [w8e] = (some .emptyStateName, w8Mgr)) ∧
    ((w8Empty.Add [w8a]).1 = none ∧
     (w8Empty.Add [w8a]).2.states "a" = some w8a) ∧
    ((w8Empty.Add [w8a, w8a2]).1 = some (.duplicateState "a") ∧
     (w8Empty.Add [w8a, w8a2]).2.states "a" = some w8a) :=
  ⟨(add_rejects_duplicate_and_empty w8Mgr w8a2).1 w8a (by decide) rfl,
   (add_rejects_duplicate_and_empty w8Mgr w8e).2.1 rfl,
   (add_rejects_duplicate_and_empty w8Empty w8a).2.2.1 (by decide) rfl,
   (add_rejects_duplicate_and_empty w8Empty w8a).2.2.2 w8a2 (by decide)
     rfl rfl⟩

/-- Witness for C9: a concrete in-memory round trip and fresh-key read,
and the same through the Redis model with the identity serializer. -/
theorem storage_set_get_roundtrip_w :
    (Store.get (Store.set wStoreEmpty 2 w9s) 2 = (w9s, true, none)) ∧
    (Store.get wStoreEmpty 3 = ((default : UserState Nat), false, none)) ∧
    ((w9r.Set 5 w9s).toOption.map (fun r' => r'.Get 5) =
      some (w9s, true, none)) ∧
    (w9r.Get 4 = ((default : UserState Nat), false, none)) :=
  ⟨(@storage_set_get_roundtrip Nat (UserState Nat) _).1 wStoreEmpty 2 w9s,
   (@storage_set_get_roundtrip Nat (UserState Nat) _).2.1 wStoreEmpty 3 rfl,
   (@storage_set_get_roundtrip Nat (UserState Nat) _).2.2.1 w9r 5 w9s w9s rfl rfl,
   (@storage_set_get_roundtrip Nat (UserState Nat) _).2.2.2 w9r 4 rfl⟩

end TgStateManager
